import Mathlib

/-!
Shallow embedding of `aspy.py`, a minimal ArchivesSpace HTTP API client:
one class `aspaceRepo` holding connection parameters and an optional session
token, a generic POST helper `requestPost`, and three callers of that helper
(`connect`, `repositoriesPost`, `subjectsPost`).

The embedding models Python values flowing through the client as a JSON value
type `JValue` (Python `None` is `JValue.null`).  The HTTP transport is a
parameter `net : Request → HttpResult` mapping the outgoing request to either
a transport failure (`requests.exceptions.ConnectionError`) or a response
with a status code, a text body (`r.text`) and its parsed JSON (`r.json()`).
Python exceptions are modelled by `PyExc`; a method that can raise returns
`Except PyExc _`.  Logging is modelled by returning the list of messages
passed to `logging.error`.
-/

namespace Aspy

/-- Python values handled by the client: JSON-shaped data, with `null`
standing for Python `None`. -/
inductive JValue where
  | null
  | bool (b : Bool)
  | num (n : Int)
  | str (s : String)
  | arr (xs : List JValue)
  | obj (fields : List (String × JValue))

/-- Python `v is None` test (`None` is modelled by `JValue.null`). -/
def JValue.isNull : JValue → Bool
  | .null => true
  | _ => false

/-- JSON string escaping as performed by Python `json.dumps` for the
characters that can occur in this client's payloads (quote, backslash and
the common control characters). -/
def escapeChar (c : Char) : List Char :=
  if c = '"' then ['\\', '"']
  else if c = '\\' then ['\\', '\\']
  else if c = '\n' then ['\\', 'n']
  else if c = '\t' then ['\\', 't']
  else if c = '\r' then ['\\', 'r']
  else [c]

def escapeString (s : String) : String :=
  String.mk (s.toList.map escapeChar).flatten

mutual
/-- Model of Python `json.dumps` with its default separators
(`", "` between items, `": "` after keys). -/
def dumps : JValue → String
  | .null => "null"
  | .bool true => "true"
  | .bool false => "false"
  | .num n => toString n
  | .str s => "\"" ++ escapeString s ++ "\""
  | .arr xs => "[" ++ String.intercalate ", " (dumpsList xs) ++ "]"
  | .obj fs => "\x7b" ++ String.intercalate ", " (dumpsFields fs) ++ "\x7d"

def dumpsList : List JValue → List String
  | [] => []
  | x :: xs => dumps x :: dumpsList xs

def dumpsFields : List (String × JValue) → List String
  | [] => []
  | (k, v) :: fs => ("\"" ++ escapeString k ++ "\": " ++ dumps v) :: dumpsFields fs
end

/-- Characters allowed inside a placeholder name of Python `string.Template`
(the default `idpattern`: letters, digits and underscore). -/
def isIdentChar (c : Char) : Bool := c.isAlphanum || c = '_'

/-- Characters that may start a placeholder name of `string.Template`. -/
def isIdentStart (c : Char) : Bool := c.isAlpha || c = '_'

/-- Splits off the longest identifier prefix of a character list. -/
def takeIdent : List Char → List Char × List Char
  | [] => ([], [])
  | c :: cs =>
    if isIdentChar c then
      let p := takeIdent cs
      (c :: p.1, p.2)
    else ([], c :: cs)

/-- Scanner of Python `string.Template.substitute`: replaces each `$name`
placeholder by `env name` and `$$` by `$`.  The `Nat` argument is fuel making
the recursion structural; callers supply the input length, which always
suffices because each step consumes at least one character. -/
def substChars (env : String → String) : Nat → List Char → List Char
  | _, [] => []
  | 0, rest => rest
  | fuel + 1, '$' :: cs =>
    match cs with
    | [] => ['$']
    | '$' :: rest => '$' :: substChars env fuel rest
    | c :: rest =>
      if isIdentStart c then
        let p := takeIdent (c :: rest)
        (env (String.mk p.1)).toList ++ substChars env fuel p.2
      else '$' :: c :: substChars env fuel rest
  | fuel + 1, c :: cs => c :: substChars env fuel cs

/-- Model of `string.Template(t).substitute(env)` for the templates used by
the client (no braced placeholders, no missing keys). -/
def substituteTemplate (t : String) (env : String → String) : String :=
  String.mk (substChars env t.toList.length t.toList)

/-- Python exceptions that can arise in the client.  `connectionError` is
aspy's own `ConnectionError` class raised by `requestPost`; the others are
builtin exceptions raised by the Python runtime. -/
inductive PyExc where
  | connectionError
  | typeError
  | keyError
  | attributeError
deriving DecidableEq, Repr

/-- Python subscripting `v[key]` with a string key: succeeds on a dict
containing the key, raises `KeyError` on a dict missing it, and raises
`TypeError` on `None` and every other non-dict value. -/
def subscript (v : JValue) (key : String) : Except PyExc JValue :=
  match v with
  | .obj fields =>
    match fields.lookup key with
    | some x => .ok x
    | none => .error .keyError
  | _ => .error .typeError

/-- The body handed to `requests.post`: either a Python value passed as-is
(the not-logged-in branch: a dict is form-encoded, a string sent raw), or
JSON text produced by `json.dumps` (the logged-in branch). -/
inductive Body where
  | form (v : JValue)
  | text (s : String)

/-- The `headers` argument handed to `requests.post`: the literal empty
string `""` in the not-logged-in branch, or a dict carrying the
`X-ArchivesSpace-Session` token in the logged-in branch. -/
inductive Header where
  | emptyStr
  | session (tok : JValue)

/-- The captured outgoing request: URL, body and headers as handed to
`requests.post`. -/
structure Request where
  url : String
  data : Body
  headers : Header

/-- What the transport does with a request: raise
`requests.exceptions.ConnectionError`, or deliver a response with status
code `status`, text body `text` (`r.text`) and parsed JSON `body`
(`r.json()`). -/
inductive HttpResult where
  | connFail
  | resp (status : Nat) (text : String) (body : JValue)

/-- The state of an `aspaceRepo` instance.  `sessionId` is a Python value
(`JValue.null` = Python `None`, the constructor's initial value).
`connection` is `none` while the attribute has never been assigned (the
constructor does not create it) and `some v` once `connect` has assigned the
Python value `v` to it. -/
structure aspaceRepo where
  protocol : String
  domain : String
  port : String
  username : String
  password : String
  sessionId : JValue
  connection : Option JValue

/-- `aspaceRepo.__init__`: stores the five connection parameters, sets
`sessionId` to `None`, and leaves the `connection` attribute nonexistent. -/
def aspaceRepo.init (protocol domain port username password : String) : aspaceRepo :=
  { protocol := protocol, domain := domain, port := port, username := username,
    password := password, sessionId := JValue.null, connection := none }

/-- Reading `repo.connection` as Python attribute access: raises
`AttributeError` when the attribute was never assigned. -/
def aspaceRepo.getAttrConnection (repo : aspaceRepo) : Except PyExc JValue :=
  match repo.connection with
  | none => .error .attributeError
  | some v => .ok v

/-- `aspaceRepo.getHost`: substitutes the connection parameters into the
template `$protocol://$domain:$port`. -/
def aspaceRepo.getHost (repo : aspaceRepo) : String :=
  substituteTemplate "$protocol://$domain:$port" fun n =>
    if n = "protocol" then repo.protocol
    else if n = "domain" then repo.domain
    else if n = "port" then repo.port
    else ""

/-- The request `requestPost` builds from the client state, the path and the
data argument: if `sessionId` is not `None`, the session header is attached
and the data is serialized with `json.dumps`; otherwise the data is passed
as-is with the empty-string header. -/
def builtRequest (repo : aspaceRepo) (path : String) (data : JValue) : Request :=
  if repo.sessionId.isNull then
    { url := repo.getHost ++ path, data := Body.form data, headers := Header.emptyStr }
  else
    { url := repo.getHost ++ path, data := Body.text (dumps data),
      headers := Header.session repo.sessionId }

/-- Outcome of one `requestPost` call: the captured outgoing request, the
result (`.error` = a raised exception, `.ok none` = the method fell through
and returned Python `None`, `.ok (some v)` = returned parsed JSON `v`), and
the messages passed to `logging.error`. -/
structure PostOutcome where
  request : Request
  result : Except PyExc (Option JValue)
  logs : List String

/-- The `try`/`except`/`else` body of `requestPost` around the
`requests.post` call: transport failure logs a message and raises the
custom `ConnectionError`; status 403, 400 and any other non-200 status log
diagnostics (including the response text, `r.text`) and fall through,
returning `None`; status 200 returns the parsed JSON body `r.json()`.
The first component is the result, the second the log messages. -/
def classify : HttpResult → Except PyExc (Option JValue) × List String
  | .connFail =>
    (.error .connectionError,
     ["Unable to connect to ArchivesSpace. Check the host information."])
  | .resp status text body =>
    if status = 403 then (.ok none, ["Forbidden -- check your credentials.", text])
    else if status = 400 then (.ok none, ["Bad Request -- Your request sucks.", text])
    else if status = 200 then (.ok (some body), [])
    else (.ok none, [toString status, text])

/-- `aspaceRepo.requestPost`: builds the request, sends it, and classifies
the outcome with `classify`. -/
def aspaceRepo.requestPost (repo : aspaceRepo) (net : Request → HttpResult)
    (path : String) (data : JValue) : PostOutcome :=
  let req := builtRequest repo path data
  let c := classify (net req)
  { request := req, result := c.1, logs := c.2 }

/-- Outcome of one `connect` call: the state after the call, the captured
outgoing login request, the exception propagating out of `connect` (if any),
and the accumulated log messages. -/
structure ConnectOutcome where
  state : aspaceRepo
  request : Request
  exc : Option PyExc
  logs : List String

/-- The login path built by `connect` from the template
`/users/$username/login`. -/
def loginPath (repo : aspaceRepo) : String :=
  substituteTemplate "/users/$username/login" fun n =>
    if n = "username" then repo.username else ""

/-- The payload `connect` passes to `requestPost`. -/
def loginPayload (repo : aspaceRepo) : JValue :=
  JValue.obj [("password", JValue.str repo.password)]

/-- The `try`/`except`/`else` statement of `connect` around its
`requestPost` call.  The `except ConnectionError` clause absorbs the raised
`ConnectionError` and logs `Couldn't authenticate.`; any other exception
would propagate.  In the `else` clause the code unconditionally assigns
`self.connection = jsonResponse` and then
`self.sessionId = jsonResponse['session']`; when `requestPost` returned
`None` (any non-200 response) the subscript raises `TypeError`, which is not
caught and propagates, with `connection` already assigned. -/
def connectFinish (repo : aspaceRepo) (post : PostOutcome) : ConnectOutcome :=
  match post.result with
  | .error .connectionError =>
    { state := repo, request := post.request, exc := none,
      logs := post.logs ++ ["Couldn't authenticate."] }
  | .error e =>
    { state := repo, request := post.request, exc := some e, logs := post.logs }
  | .ok jsonResponse =>
    let pyVal := match jsonResponse with
      | none => JValue.null
      | some v => v
    let repo1 := { repo with connection := some pyVal }
    match subscript pyVal "session" with
    | .error e => { state := repo1, request := post.request, exc := some e, logs := post.logs }
    | .ok s =>
      { state := { repo1 with sessionId := s }, request := post.request, exc := none,
        logs := post.logs }

/-- `aspaceRepo.connect`: POSTs the password to the login path built from
`/users/$username/login` and finishes with `connectFinish`. -/
def aspaceRepo.connect (repo : aspaceRepo) (net : Request → HttpResult) : ConnectOutcome :=
  connectFinish repo (repo.requestPost net (loginPath repo) (loginPayload repo))

/-- The payload `repositoriesPost` builds from its two parameters. -/
def repositoryPayload (repo_code name : String) : JValue :=
  JValue.obj [("jsonmodel_type", JValue.str "repository"),
              ("repo_code", JValue.str repo_code),
              ("name", JValue.str name)]

/-- `aspaceRepo.repositoriesPost`: delegates to `requestPost` on path
`/repositories` with the repository payload and returns its result
unchanged. -/
def aspaceRepo.repositoriesPost (repo : aspaceRepo) (net : Request → HttpResult)
    (repo_code name : String) : PostOutcome :=
  repo.requestPost net "/repositories" (repositoryPayload repo_code name)

/-- The fixed, hard-coded subject payload built by `subjectsPost`. -/
def subjectData : JValue :=
  JValue.obj [("jsonmodel_type", JValue.str "subject"),
              ("external_ids", JValue.arr []),
              ("publish", JValue.bool true),
              ("used_within_repositories", JValue.arr []),
              ("used_within_published_repositories", JValue.arr []),
              ("terms", JValue.arr [JValue.obj [("jsonmodel_type", JValue.str "term"),
                                                ("term", JValue.str "Term 132"),
                                                ("term_type", JValue.str "geographic"),
                                                ("vocabulary", JValue.str "/vocabularies/156")]]),
              ("external_documents", JValue.arr []),
              ("vocabulary", JValue.str "/vocabularies/157"),
              ("authority_id", JValue.str "http://www.example-596.com"),
              ("scope_note", JValue.str "M911GA46"),
              ("source", JValue.str "gmgpc")]

/-- `aspaceRepo.subjectsPost`: serializes the hard-coded subject payload with
`json.dumps` itself and passes the resulting STRING to `requestPost` on path
`/subjects`, returning its result unchanged. -/
def aspaceRepo.subjectsPost (repo : aspaceRepo) (net : Request → HttpResult) : PostOutcome :=
  repo.requestPost net "/subjects" (JValue.str (dumps subjectData))

/-- One client operation, for stating frame properties over arbitrary call
sequences. -/
inductive Op where
  | buildHost
  | login (net : Request → HttpResult)
  | post (net : Request → HttpResult) (path : String) (data : JValue)
  | createRepository (net : Request → HttpResult) (repo_code name : String)
  | createSubject (net : Request → HttpResult)

/-- State transition of one operation.  Only `connect` assigns any attribute
of the instance; `getHost`, `requestPost`, `repositoriesPost` and
`subjectsPost` contain no attribute assignment, so they leave the state
unchanged. -/
def step (repo : aspaceRepo) : Op → aspaceRepo
  | .login net => (repo.connect net).state
  | _ => repo

/-- A freshly constructed client, as in the doctests of `aspy.py`. -/
def demoRepo : aspaceRepo := aspaceRepo.init "http" "localhost" "8089" "admin" "admin"

/-- The same client after a successful login issued the token `abc123`. -/
def demoRepoAuth : aspaceRepo := { demoRepo with sessionId := JValue.str "abc123" }

/-- The login response body used by the spec's concrete login scenario. -/
def demoLoginBody : JValue :=
  JValue.obj [("session", JValue.str "abc123"),
              ("user", JValue.obj [("username", JValue.str "admin")])]

/-- A remote service answering every request with HTTP 200 and
`demoLoginBody`. -/
def netOk : Request → HttpResult := fun _ => HttpResult.resp 200 "ok" demoLoginBody

/-- A remote service answering every request with HTTP 403. -/
def net403 : Request → HttpResult := fun _ => HttpResult.resp 403 "Forbidden" JValue.null

/-- A remote service answering every request with HTTP 400. -/
def net400 : Request → HttpResult := fun _ => HttpResult.resp 400 "Bad" JValue.null

/-- A remote service answering every request with HTTP 500. -/
def net500 : Request → HttpResult := fun _ => HttpResult.resp 500 "oops" JValue.null

/-- An unreachable remote service: every request fails at transport level. -/
def netDown : Request → HttpResult := fun _ => HttpResult.connFail

end Aspy

namespace Aspy

/-! Helper lemmas shared by the claim theorems. -/

theorem requestPost_eq (repo : aspaceRepo) (net : Request → HttpResult)
    (path : String) (data : JValue) :
    repo.requestPost net path data =
      { request := builtRequest repo path data,
        result := (classify (net (builtRequest repo path data))).1,
        logs := (classify (net (builtRequest repo path data))).2 } := rfl

theorem connect_eq (repo : aspaceRepo) (net : Request → HttpResult) :
    repo.connect net =
      connectFinish repo (repo.requestPost net (loginPath repo) (loginPayload repo)) := rfl

theorem connectFinish_connErr (repo : aspaceRepo) (req : Request) (logs : List String) :
    connectFinish repo { request := req, result := .error .connectionError, logs := logs } =
      { state := repo, request := req, exc := none,
        logs := logs ++ ["Couldn't authenticate."] } := rfl

theorem connectFinish_ok_none (repo : aspaceRepo) (req : Request) (logs : List String) :
    connectFinish repo { request := req, result := .ok none, logs := logs } =
      { state := { repo with connection := some JValue.null }, request := req,
        exc := some .typeError, logs := logs } := rfl

theorem connectFinish_ok_some (repo : aspaceRepo) (req : Request) (logs : List String)
    (v s : JValue) (hs : subscript v "session" = .ok s) :
    connectFinish repo { request := req, result := .ok (some v), logs := logs } =
      { state := { repo with connection := some v, sessionId := s }, request := req,
        exc := none, logs := logs } := by
  have h : connectFinish repo { request := req, result := .ok (some v), logs := logs } =
      match subscript v "session" with
      | .error e =>
        { state := { repo with connection := some v }, request := req, exc := some e,
          logs := logs }
      | .ok s =>
        { state := { repo with connection := some v, sessionId := s }, request := req,
          exc := none, logs := logs } := rfl
  rw [h, hs]

theorem classify_ne200 (s : Nat) (t : String) (b : JValue) (h : s ≠ 200) :
    classify (.resp s t b) = (.ok none, (classify (.resp s t b)).2) ∧
    t ∈ (classify (.resp s t b)).2 := by
  by_cases h403 : s = 403
  · subst h403; simp [classify]
  · by_cases h400 : s = 400
    · subst h400; simp [classify]
    · simp [classify, h403, h400, h]

theorem loginPath_eq (repo : aspaceRepo) :
    loginPath repo = "/users/" ++ repo.username ++ "/login" := by
  have h1 : loginPath repo =
      String.mk ('/' :: 'u' :: 's' :: 'e' :: 'r' :: 's' :: '/' ::
        (repo.username.data ++ ('/' :: 'l' :: 'o' :: 'g' :: 'i' :: 'n' :: []))) := rfl
  have h2 : "/users/" ++ repo.username ++ "/login" =
      String.mk (("/users/".data ++ repo.username.data) ++ "/login".data) := rfl
  rw [h1, h2]
  exact congrArg String.mk (by simp)

theorem getHost_formats (repo : aspaceRepo) :
    repo.getHost = repo.protocol ++ "://" ++ repo.domain ++ ":" ++ repo.port := by
  have h1 : repo.getHost =
      String.mk (repo.protocol.data ++ (':' :: '/' :: '/' ::
        (repo.domain.data ++ (':' :: (repo.port.data ++ []))))) := rfl
  have h2 : repo.protocol ++ "://" ++ repo.domain ++ ":" ++ repo.port =
      String.mk ((((repo.protocol.data ++ "://".data) ++ repo.domain.data) ++ ":".data)
        ++ repo.port.data) := rfl
  rw [h1, h2]
  exact congrArg String.mk (by simp)

end Aspy

namespace Aspy

/-! Additional helper lemmas. -/

theorem classify_result_status (s : Nat) (t : String) (b : JValue) :
    (classify (HttpResult.resp s t b)).1 = .ok (if s = 200 then some b else none) := by
  by_cases h403 : s = 403
  · subst h403; rfl
  · by_cases h400 : s = 400
    · subst h400; rfl
    · by_cases h200 : s = 200
      · subst h200; rfl
      · simp [classify, h403, h400, h200]

/-- Claim C8: `getHost` is a pure function of the stored protocol, domain
and port, returning exactly the string `protocol://domain:port` with no
normalization and no error conditions. -/
theorem getHost_pure (repo : aspaceRepo) :
    repo.getHost = repo.protocol ++ "://" ++ repo.domain ++ ":" ++ repo.port :=
  getHost_formats repo

/-- Claim C3: for every `requestPost` call that reaches the remote service,
a 200 response yields the parsed JSON body, and every non-200 status yields
no value (`None`), with the response body logged; the same empty result is
returned for 403, 400 and any other non-200 status. -/
theorem requestPost_status_contract (repo : aspaceRepo) (net : Request → HttpResult)
    (path : String) (data : JValue) (s : Nat) (t : String) (b : JValue)
    (hnet : net (builtRequest repo path data) = HttpResult.resp s t b) :
    (repo.requestPost net path data).result = .ok (if s = 200 then some b else none) ∧
    (s ≠ 200 → t ∈ (repo.requestPost net path data).logs) := by
  rw [requestPost_eq, hnet]
  exact ⟨classify_result_status s t b, fun h200 => (classify_ne200 s t b h200).2⟩

theorem requestPost_status_contract_witness :
    (500 : Nat) ≠ 200 ∧
    (demoRepo.requestPost net500 "/repositories" JValue.null).result = .ok none ∧
    "oops" ∈ (demoRepo.requestPost net500 "/repositories" JValue.null).logs ∧
    (demoRepo.requestPost netOk "/repositories" JValue.null).result = .ok (some demoLoginBody) := by
  have h1 := requestPost_status_contract demoRepo net500 "/repositories" JValue.null
    500 "oops" JValue.null rfl
  have h2 := requestPost_status_contract demoRepo netOk "/repositories" JValue.null
    200 "ok" demoLoginBody rfl
  exact ⟨by decide, h1.1, h1.2 (by decide), h2.1⟩

/-- Claim C1 (amended): after a transport-level connection failure, `connect`
absorbs the error, logs it, and leaves the state untouched.  After a non-200
HTTP response, the session token still remains unset and the failure is
logged, but — contrary to the claim as stated — a `TypeError` propagates to
the caller of `connect` and the `connection` attribute is assigned the value
`None`. -/
theorem connect_failure_behavior (repo : aspaceRepo) (net : Request → HttpResult) :
    (net (builtRequest repo (loginPath repo) (loginPayload repo)) = HttpResult.connFail →
      (repo.connect net).state = repo ∧ (repo.connect net).exc = none ∧
      (repo.connect net).logs =
        ["Unable to connect to ArchivesSpace. Check the host information.",
         "Couldn't authenticate."]) ∧
    (∀ s t b, s ≠ 200 →
      net (builtRequest repo (loginPath repo) (loginPayload repo)) = HttpResult.resp s t b →
      (repo.connect net).state.sessionId = repo.sessionId ∧
      (repo.connect net).state.connection = some JValue.null ∧
      (repo.connect net).exc = some PyExc.typeError ∧
      t ∈ (repo.connect net).logs) := by
  constructor
  · intro h
    rw [connect_eq, requestPost_eq, h]
    exact ⟨rfl, rfl, rfl⟩
  · intro s t b hs hnet
    rw [connect_eq, requestPost_eq, hnet]
    obtain ⟨hc, hm⟩ := classify_ne200 s t b hs
    rw [hc]
    exact ⟨rfl, rfl, rfl, hm⟩

/-- Claim C1 counterexample: with a remote service answering HTTP 403 to the
login request, `connect` lets a `TypeError` escape to its caller (raised by
subscripting the `None` returned by `requestPost`), so it is not true that
no exception propagates on a failed login. -/
theorem connect_403_raises :
    (demoRepo.connect net403).exc = some PyExc.typeError ∧
    (demoRepo.connect net403).state.connection = some JValue.null := ⟨rfl, rfl⟩

theorem connect_failure_behavior_witness :
    ((demoRepo.connect netDown).state = demoRepo ∧
     (demoRepo.connect netDown).exc = none ∧
     (demoRepo.connect netDown).logs =
       ["Unable to connect to ArchivesSpace. Check the host information.",
        "Couldn't authenticate."]) ∧
    ((demoRepo.connect net400).state.sessionId = demoRepo.sessionId ∧
     (demoRepo.connect net400).state.connection = some JValue.null ∧
     (demoRepo.connect net400).exc = some PyExc.typeError ∧
     "Bad" ∈ (demoRepo.connect net400).logs) :=
  ⟨(connect_failure_behavior demoRepo netDown).1 rfl,
   (connect_failure_behavior demoRepo net400).2 400 "Bad" JValue.null (by decide) rfl⟩

end Aspy

namespace Aspy

/-- Claim C2: on a fresh (not yet logged-in) client, `connect` sends a POST
to `/users/<username>/login` with the password dict as unserialized body and
no session header; on an HTTP 200 response it stores the full parsed JSON
response in `connection` and the response's `session` field in
`sessionId`. -/
theorem connect_success_contract (repo : aspaceRepo) (net : Request → HttpResult)
    (t : String) (v tok : JValue)
    (hnull : repo.sessionId = JValue.null)
    (hnet : net (builtRequest repo (loginPath repo) (loginPayload repo)) =
      HttpResult.resp 200 t v)
    (hsess : subscript v "session" = .ok tok) :
    (repo.connect net).request =
      { url := repo.getHost ++ "/users/" ++ repo.username ++ "/login",
        data := Body.form (JValue.obj [("password", JValue.str repo.password)]),
        headers := Header.emptyStr } ∧
    (repo.connect net).state = { repo with connection := some v, sessionId := tok } ∧
    (repo.connect net).exc = none ∧
    (repo.connect net).logs = [] := by
  rw [connect_eq, requestPost_eq, hnet]
  rw [show classify (HttpResult.resp 200 t v) =
        ((.ok (some v) : Except PyExc (Option JValue)), ([] : List String)) from rfl]
  rw [connectFinish_ok_some repo _ _ v tok hsess]
  refine ⟨?_, rfl, rfl, rfl⟩
  have hurl : repo.getHost ++ loginPath repo =
      repo.getHost ++ "/users/" ++ repo.username ++ "/login" := by
    rw [loginPath_eq]
    have h1 : repo.getHost ++ ("/users/" ++ repo.username ++ "/login") =
        String.mk (repo.getHost.data ++
          (("/users/".data ++ repo.username.data) ++ "/login".data)) := rfl
    have h2 : repo.getHost ++ "/users/" ++ repo.username ++ "/login" =
        String.mk (((repo.getHost.data ++ "/users/".data) ++ repo.username.data)
          ++ "/login".data) := rfl
    rw [h1, h2]
    exact congrArg String.mk (by simp)
  show builtRequest repo (loginPath repo) (loginPayload repo) = _
  unfold builtRequest
  rw [hnull, hurl]
  rfl

theorem connect_success_contract_witness :
    demoRepo.sessionId = JValue.null ∧
    (demoRepo.connect netOk).request =
      { url := "http://localhost:8089/users/admin/login",
        data := Body.form (JValue.obj [("password", JValue.str "admin")]),
        headers := Header.emptyStr } ∧
    (demoRepo.connect netOk).state.sessionId = JValue.str "abc123" ∧
    (demoRepo.connect netOk).state.connection = some demoLoginBody ∧
    (subscript demoLoginBody "user").bind (fun u => subscript u "username") =
      .ok (JValue.str "admin") := by
  have h := connect_success_contract demoRepo netOk "ok" demoLoginBody
    (JValue.str "abc123") rfl rfl rfl
  refine ⟨rfl, ?_, ?_, ?_, rfl⟩
  · rw [h.1]; rfl
  · rw [h.2.1]
  · rw [h.2.1]

/-- Claim C4: a transport-level failure during any POST surfaces as the
distinct `ConnectionError` raised by `requestPost`, never as a success; it
propagates unchanged through `repositoriesPost` and `subjectsPost`, and is
absorbed by `connect`, which logs and does not re-raise. -/
theorem connectionFailure_policy (repo : aspaceRepo) (net : Request → HttpResult) :
    (∀ path data, net (builtRequest repo path data) = HttpResult.connFail →
      (repo.requestPost net path data).result = .error .connectionError) ∧
    (∀ repo_code name,
      net (builtRequest repo "/repositories" (repositoryPayload repo_code name)) =
        HttpResult.connFail →
      (repo.repositoriesPost net repo_code name).result = .error .connectionError) ∧
    (net (builtRequest repo "/subjects" (JValue.str (dumps subjectData))) =
        HttpResult.connFail →
      (repo.subjectsPost net).result = .error .connectionError) ∧
    (net (builtRequest repo (loginPath repo) (loginPayload repo)) = HttpResult.connFail →
      (repo.connect net).exc = none ∧ (repo.connect net).state = repo ∧
      "Couldn't authenticate." ∈ (repo.connect net).logs) := by
  refine ⟨fun path data h => ?_, fun rc nm h => ?_, fun h => ?_, fun h => ?_⟩
  · rw [requestPost_eq, h]; rfl
  · show (repo.requestPost net "/repositories" (repositoryPayload rc nm)).result = _
    rw [requestPost_eq, h]; rfl
  · show (repo.requestPost net "/subjects" (JValue.str (dumps subjectData))).result = _
    rw [requestPost_eq, h]; rfl
  · rw [connect_eq, requestPost_eq, h]
    refine ⟨rfl, rfl, ?_⟩
    show "Couldn't authenticate." ∈
      ("Unable to connect to ArchivesSpace. Check the host information." ::
       "Couldn't authenticate." :: [])
    decide

theorem connectionFailure_policy_witness :
    (demoRepo.requestPost netDown "/repositories" JValue.null).result =
      .error .connectionError ∧
    (demoRepo.repositoriesPost netDown "FOO1" "Test Repo").result =
      .error .connectionError ∧
    (demoRepo.subjectsPost netDown).result = .error .connectionError ∧
    (demoRepo.connect netDown).exc = none ∧
    "Couldn't authenticate." ∈ (demoRepo.connect netDown).logs := by
  have h := connectionFailure_policy demoRepo netDown
  exact ⟨h.1 "/repositories" JValue.null rfl, h.2.1 "FOO1" "Test Repo" rfl,
    h.2.2.1 rfl, (h.2.2.2 rfl).1, (h.2.2.2 rfl).2.2⟩

/-- Claim C5: when the session token is set, `requestPost` sends the payload
serialized with `json.dumps` and attaches the token as the session header;
when it is unset, the payload is sent as-is with no session header. -/
theorem requestPost_serialization (repo : aspaceRepo) (net : Request → HttpResult)
    (path : String) (data : JValue) :
    (repo.sessionId.isNull = false →
      (repo.requestPost net path data).request =
        { url := repo.getHost ++ path, data := Body.text (dumps data),
          headers := Header.session repo.sessionId }) ∧
    (repo.sessionId.isNull = true →
      (repo.requestPost net path data).request =
        { url := repo.getHost ++ path, data := Body.form data,
          headers := Header.emptyStr }) := by
  constructor <;> intro h <;>
  · show builtRequest repo path data = _
    simp [builtRequest, h]

theorem requestPost_serialization_witness :
    demoRepoAuth.sessionId.isNull = false ∧
    (demoRepoAuth.requestPost netOk "/subjects" (JValue.str "x")).request =
      { url := "http://localhost:8089/subjects",
        data := Body.text "\"x\"",
        headers := Header.session (JValue.str "abc123") } ∧
    demoRepo.sessionId.isNull = true ∧
    (demoRepo.requestPost netOk "/subjects" (JValue.str "x")).request =
      { url := "http://localhost:8089/subjects",
        data := Body.form (JValue.str "x"),
        headers := Header.emptyStr } := by
  have h1 := (requestPost_serialization demoRepoAuth netOk "/subjects" (JValue.str "x")).1 rfl
  have h2 := (requestPost_serialization demoRepo netOk "/subjects" (JValue.str "x")).2 rfl
  refine ⟨rfl, ?_, rfl, ?_⟩
  · rw [h1]; rfl
  · rw [h2]; rfl

end Aspy

namespace Aspy

/-- Claim C6: `repositoriesPost` issues exactly one POST, to `/repositories`
with the payload built from `jsonmodel_type = repository`, the given
`repo_code` and the given `name`, and returns exactly what the generic POST
helper returns — the parsed JSON on 200, no usable value otherwise. -/
theorem repositoriesPost_contract (repo : aspaceRepo) (net : Request → HttpResult)
    (repo_code name : String) :
    repo.repositoriesPost net repo_code name =
      repo.requestPost net "/repositories"
        (JValue.obj [("jsonmodel_type", JValue.str "repository"),
                     ("repo_code", JValue.str repo_code),
                     ("name", JValue.str name)]) ∧
    (repo.repositoriesPost net repo_code name).request.url =
      repo.getHost ++ "/repositories" ∧
    (∀ s t b,
      net (builtRequest repo "/repositories" (repositoryPayload repo_code name)) =
        HttpResult.resp s t b →
      (repo.repositoriesPost net repo_code name).result =
        .ok (if s = 200 then some b else none)) := by
  refine ⟨rfl, ?_, fun s t b h => ?_⟩
  · show (builtRequest repo "/repositories" (repositoryPayload repo_code name)).url = _
    unfold builtRequest
    by_cases hn : repo.sessionId.isNull <;> simp [hn]
  · show (repo.requestPost net "/repositories" (repositoryPayload repo_code name)).result = _
    rw [requestPost_eq, h]
    exact classify_result_status s t b

theorem repositoriesPost_contract_witness :
    (demoRepo.repositoriesPost netOk "FOO1" "Test Repo").result =
      .ok (some demoLoginBody) ∧
    (demoRepo.repositoriesPost net403 "FOO1" "Test Repo").result = .ok none ∧
    (demoRepo.repositoriesPost netOk "FOO1" "Test Repo").request.url =
      "http://localhost:8089/repositories" := by
  have hok := (repositoriesPost_contract demoRepo netOk "FOO1" "Test Repo").2.2
    200 "ok" demoLoginBody rfl
  have h403 := (repositoriesPost_contract demoRepo net403 "FOO1" "Test Repo").2.2
    403 "Forbidden" JValue.null rfl
  have hurl := (repositoriesPost_contract demoRepo netOk "FOO1" "Test Repo").2.1
  exact ⟨hok, h403, by rw [hurl]; rfl⟩

/-- Claim C7: `subjectsPost` takes no payload parameters, serializes its
fixed hard-coded subject payload to a JSON string itself, and the generic
POST helper then serializes that string again when a session token is
present, so the body sent is the JSON encoding of a JSON string — double
serialization — and differs from the single serialization of the subject
object. -/
theorem subjectsPost_double_serialization (repo : aspaceRepo)
    (net : Request → HttpResult) (h : repo.sessionId.isNull = false) :
    repo.subjectsPost net =
      repo.requestPost net "/subjects" (JValue.str (dumps subjectData)) ∧
    (repo.subjectsPost net).request.data =
      Body.text (dumps (JValue.str (dumps subjectData))) ∧
    dumps (JValue.str (dumps subjectData)) ≠ dumps subjectData := by
  refine ⟨rfl, ?_, by decide⟩
  show (builtRequest repo "/subjects" (JValue.str (dumps subjectData))).data = _
  simp [builtRequest, h]

theorem subjectsPost_double_serialization_witness :
    demoRepoAuth.sessionId.isNull = false ∧
    (demoRepoAuth.subjectsPost netOk).request.data =
      Body.text (dumps (JValue.str (dumps subjectData))) :=
  ⟨rfl, (subjectsPost_double_serialization demoRepoAuth netOk rfl).2.1⟩

end Aspy

namespace Aspy

theorem connect_state_params (repo : aspaceRepo) (net : Request → HttpResult) :
    ((repo.connect net).state).protocol = repo.protocol ∧
    ((repo.connect net).state).domain = repo.domain ∧
    ((repo.connect net).state).port = repo.port ∧
    ((repo.connect net).state).username = repo.username ∧
    ((repo.connect net).state).password = repo.password := by
  rw [connect_eq]
  rcases hpost : repo.requestPost net (loginPath repo) (loginPayload repo) with ⟨req, res, logs⟩
  rcases res with e | jr
  · rcases e <;> exact ⟨rfl, rfl, rfl, rfl, rfl⟩
  · rcases jr with _ | v
    · exact ⟨rfl, rfl, rfl, rfl, rfl⟩
    · have hdef : connectFinish repo { request := req, result := .ok (some v), logs := logs } =
          match subscript v "session" with
          | .error e =>
            { state := { repo with connection := some v }, request := req, exc := some e,
              logs := logs }
          | .ok s =>
            { state := { repo with connection := some v, sessionId := s }, request := req,
              exc := none, logs := logs } := rfl
      rcases hs : subscript v "session" with e | s <;> rw [hdef, hs] <;>
        exact ⟨rfl, rfl, rfl, rfl, rfl⟩

theorem step_params (repo : aspaceRepo) (op : Op) :
    (step repo op).protocol = repo.protocol ∧
    (step repo op).domain = repo.domain ∧
    (step repo op).port = repo.port ∧
    (step repo op).username = repo.username ∧
    (step repo op).password = repo.password := by
  cases op with
  | buildHost => exact ⟨rfl, rfl, rfl, rfl, rfl⟩
  | login net => exact connect_state_params repo net
  | post net path data => exact ⟨rfl, rfl, rfl, rfl, rfl⟩
  | createRepository net rc nm => exact ⟨rfl, rfl, rfl, rfl, rfl⟩
  | createSubject net => exact ⟨rfl, rfl, rfl, rfl, rfl⟩

/-- Claim C9: the five connection parameters are immutable after
construction — after any sequence of client operations (`buildHost`,
`login`, `post`, `createRepository`, `createSubject`) they still equal the
values held before the sequence; only `connect` assigns any attribute, and
it never touches these five. -/
theorem connectionParams_immutable (repo : aspaceRepo) (ops : List Op) :
    (ops.foldl step repo).protocol = repo.protocol ∧
    (ops.foldl step repo).domain = repo.domain ∧
    (ops.foldl step repo).port = repo.port ∧
    (ops.foldl step repo).username = repo.username ∧
    (ops.foldl step repo).password = repo.password := by
  induction ops generalizing repo with
  | nil => exact ⟨rfl, rfl, rfl, rfl, rfl⟩
  | cons op ops ih =>
    have h1 := ih (step repo op)
    have h2 := step_params repo op
    simp only [List.foldl_cons]
    exact ⟨h1.1.trans h2.1, h1.2.1.trans h2.2.1, h1.2.2.1.trans h2.2.2.1,
      h1.2.2.2.1.trans h2.2.2.2.1, h1.2.2.2.2.trans h2.2.2.2.2⟩

/-- Claim C10: immediately after construction the session token is `None`
and the `connection` attribute does not exist at all, so reading it raises
`AttributeError` rather than yielding an empty value; any login call that
obtains an HTTP response (of any status) assigns the attribute. -/
theorem init_state_uninitialized (protocol domain port username password : String) :
    (aspaceRepo.init protocol domain port username password).sessionId = JValue.null ∧
    (aspaceRepo.init protocol domain port username password).connection = none ∧
    (aspaceRepo.init protocol domain port username password).getAttrConnection =
      .error .attributeError ∧
    (∀ net s t b,
      net (builtRequest (aspaceRepo.init protocol domain port username password)
            (loginPath (aspaceRepo.init protocol domain port username password))
            (loginPayload (aspaceRepo.init protocol domain port username password))) =
        HttpResult.resp s t b →
      ((aspaceRepo.init protocol domain port username password).connect net).state.connection
        ≠ none) := by
  refine ⟨rfl, rfl, rfl, fun net s t b hnet => ?_⟩
  rw [connect_eq, requestPost_eq, hnet]
  by_cases h200 : s = 200
  · subst h200
    have hdef : ∀ v req logs,
        connectFinish (aspaceRepo.init protocol domain port username password)
          { request := req, result := .ok (some v), logs := logs } =
        match subscript v "session" with
        | .error e =>
          { state := { aspaceRepo.init protocol domain port username password with
              connection := some v },
            request := req, exc := some e, logs := logs }
        | .ok s' =>
          { state := { aspaceRepo.init protocol domain port username password with
              connection := some v, sessionId := s' },
            request := req, exc := none, logs := logs } := fun _ _ _ => rfl
    rcases hs : subscript b "session" with e | s' <;>
      · rw [show (classify (HttpResult.resp 200 t b)).1 = .ok (some b) from rfl, hdef, hs]
        exact Option.some_ne_none _
  · rw [(classify_ne200 s t b h200).1]
    exact Option.some_ne_none _

theorem init_state_uninitialized_witness :
    (aspaceRepo.init "http" "localhost" "8089" "admin" "admin").getAttrConnection =
      .error .attributeError ∧
    ((aspaceRepo.init "http" "localhost" "8089" "admin" "admin").connect net403).state.connection
      ≠ none :=
  ⟨(init_state_uninitialized "http" "localhost" "8089" "admin" "admin").2.2.1,
   (init_state_uninitialized "http" "localhost" "8089" "admin" "admin").2.2.2
     net403 403 "Forbidden" JValue.null rfl⟩

end Aspy
